import Mathlib

/-!
# Verification of the weathercli location-resolution engine

A shallow embedding of the location-resolution core of the `weathercli`
repository: the `Location` value type (`src/weather/types.py`), the
priority-chain resolver `LocationResolver.resolve_location`
(`src/weather/location_resolver.py`), and the acquisition service
`LocationService` with its native-platform strategies and IP-geolocation
fallback (`src/weather/location.py`).

Modelling conventions:
* Python floats are modelled as exact rationals (`ℚ`); the decimal
  literals appearing in the spec and the payloads denote exact decimal
  values, so equalities between them are faithfully decided in `ℚ`.
* `Optional[X]` becomes `Option X`; Python truthiness of an optional
  string (`if city:`) is modelled explicitly (`none` and the empty
  string are falsy).
* Code that may raise is modelled in `Except Unit`; a Python
  `try/except` block becomes a `match` on the `Except` value.
  Exception raises whose trigger lives outside the modelled state
  (library import failure, OS/API faults mid-call) are injected as
  explicit constructors of the environment types.
* Calls to the two acquisition layers are instrumented with a trace
  (`List ProviderCall`) so that frame conditions ("the network layer is
  not touched") are provable.
-/

/-- A call to one of the two acquisition layers, recorded in traces:
`native` is the `_get_native_location` attempt, `ip` the
`_get_ip_location` attempt. -/
inductive ProviderCall where
  | native : ProviderCall
  | ip : ProviderCall
deriving DecidableEq, Repr

/-- Round the rational `num / den` (with `den > 0`) to the nearest
integer, ties to the even integer. This is the rounding CPython's
fixed-point formatting applies to the exact value being formatted.
Computed on the integer pair so that it evaluates by kernel reduction:
`f` is the floor, and the remainder `num - f * den` is compared with
`den / 2` via doubling. -/
def roundHalfEven (num den : ℤ) : ℤ :=
  let f := Int.fdiv num den
  let r2 := 2 * (num - f * den)
  if r2 < den then f
  else if den < r2 then f + 1
  else if f % 2 = 0 then f else f + 1

/-- Zero-pad a two-digit fractional part. -/
def pad2 (n : ℕ) : String :=
  if n < 10 then "0" ++ toString n else toString n

/-- CPython's `f"{x:.2f}"` fixed-point formatting with two fractional
digits, on the exact value of `x`: round `100 * x` half to even, keep
the sign of the input (so a small negative value prints as `-0.00`). -/
def fmt2 (q : ℚ) : String :=
  let n := (roundHalfEven (100 * q.num) (q.den : ℤ)).natAbs
  let sign := if q.num < 0 then "-" else ""
  sign ++ toString (n / 100) ++ "." ++ pad2 (n % 100)

/-- The payload of a `Location`: `value: Union[str, Tuple[float, float]]`
from `src/weather/types.py`. A `str` value is a city name, a tuple is a
coordinate pair. -/
inductive LocValue where
  | city (name : String) : LocValue
  | coords (lat lon : ℚ) : LocValue
deriving DecidableEq, Repr

/-- The `Location` dataclass of `src/weather/types.py`: a `value` plus a
stored display string `description` computed by the constructor used. -/
structure Location where
  value : LocValue
  description : String
deriving DecidableEq, Repr

/-- `Location.from_city`: wraps a city name, description `"city {city}"`. -/
def Location.from_city (city : String) : Location :=
  { value := LocValue.city city, description := "city " ++ city }

/-- `Location.from_coordinates`: wraps a coordinate pair, description
`"coordinates {lat:.2f}, {lon:.2f}"`. -/
def Location.from_coordinates (lat lon : ℚ) : Location :=
  { value := LocValue.coords lat lon,
    description := "coordinates " ++ fmt2 lat ++ ", " ++ fmt2 lon }

/-- `Location.is_coordinates`: `isinstance(self.value, tuple)`. -/
def Location.is_coordinates (l : Location) : Bool :=
  match l.value with
  | LocValue.coords _ _ => true
  | LocValue.city _ => false

/-- `Location.coordinates`: the coordinate pair, or a raised
`ValueError` when the location is city-based. -/
def Location.coordinates (l : Location) : Except Unit (ℚ × ℚ) :=
  match l.value with
  | LocValue.coords la lo => Except.ok (la, lo)
  | LocValue.city _ => Except.error ()

/-- `Location.city_name`: the city name, or a raised `ValueError` when
the location is coordinate-based. -/
def Location.city_name (l : Location) : Except Unit String :=
  match l.value with
  | LocValue.city c => Except.ok c
  | LocValue.coords _ _ => Except.error ()

example : fmt2 (40 : ℚ) = "40.00" := by decide
example : fmt2 (mkRat 407128 10000) = "40.71" := by decide
example : fmt2 (mkRat (-74006) 1000) = "-74.01" := by decide
example : fmt2 (mkRat 1 8) = "0.12" := by decide
example : fmt2 (mkRat (-4) 1000) = "-0.00" := by decide
example : (40.7128 : ℚ) = mkRat 407128 10000 := by
  rw [Rat.mkRat_eq_div]; norm_num
example : (-74.006 : ℚ) = mkRat (-74006) 1000 := by
  rw [Rat.mkRat_eq_div]; norm_num

/-- Parse a run of decimal digits as a natural number; `none` when the
run is empty or holds a non-digit. Helper for `parseDecimal`. -/
def parseDigits (cs : List Char) : Option ℕ :=
  if cs.isEmpty then none
  else cs.foldl (fun acc c => acc.bind fun n =>
    if c.isDigit then some (10 * n + (c.toNat - 48)) else none) (some 0)

/-- Split a character list at every `'.'`. Helper for `parseDecimal`,
structural so that it evaluates by kernel reduction. -/
def splitDot : List Char → List (List Char)
  | [] => [[]]
  | c :: rest =>
      let r := splitDot rest
      if c = '.' then [] :: r
      else
        match r with
        | h :: t => (c :: h) :: t
        | [] => [[c]]

/-- Strip an optional leading sign, returning the sign as `±1`. Helper
for `parseDecimal`. -/
def parseSign (cs : List Char) : ℤ × List Char :=
  match cs with
  | '-' :: rest => (-1, rest)
  | '+' :: rest => (1, rest)
  | _ => (1, cs)

/-- Python `float(s)` on a plain decimal string: optional sign, integer
digits, optional fractional digits (at least one digit overall). We
model this fragment of `float`'s grammar; strings outside it (and
outside the special forms not used by the provider) raise `ValueError`,
here `none`. The result is the exact decimal value. -/
def parseDecimal (s : String) : Option ℚ :=
  let sb := parseSign s.toList
  match splitDot sb.2 with
  | [ipart] => (parseDigits ipart).map fun n => mkRat (sb.1 * n) 1
  | [ipart, fpart] =>
      if ipart.isEmpty && fpart.isEmpty then none
      else
        let ipn := if ipart.isEmpty then some 0 else parseDigits ipart
        let fpn := if fpart.isEmpty then some 0 else parseDigits fpart
        match ipn, fpn with
        | some i, some f =>
            some (mkRat (sb.1 * (i * 10 ^ fpart.length + f)) (10 ^ fpart.length))
        | _, _ => none
  | _ => none

/-- A JSON value in a coordinate field of the IP-provider payload:
a number, a string, or anything else (on which `float()` raises). -/
inductive JVal where
  | num (q : ℚ) : JVal
  | str (s : String) : JVal
  | other : JVal
deriving Repr

/-- Python `float()` applied to a JSON field value: numbers pass
through, decimal strings are parsed, everything else raises. -/
def pyFloat : JVal → Except Unit ℚ
  | JVal.num q => Except.ok q
  | JVal.str s =>
      match parseDecimal s with
      | some q => Except.ok q
      | none => Except.error ()
  | JVal.other => Except.error ()

/-- The JSON body returned by the IP-geolocation endpoint, restricted
to the fields the code reads. `error` is the truthiness of
`payload.get("error")`; an absent key and a JSON `null` both appear as
`none`. -/
structure IPPayload where
  error : Bool
  latitude : Option JVal
  longitude : Option JVal
  city : Option String
  region : Option String
  country_name : Option String
  country : Option String
  timezone : Option String
deriving Repr

/-- The outcome of `_make_request`: the parsed JSON payload, or a
raised `requests` / JSON-decoding exception (transport failure,
non-2xx status, malformed body). -/
def IPRequest : Type := Except Unit IPPayload

/-- `LocationService._get_ip_location`: one request; a provider-level
error flag, a missing/null coordinate field, a failed `float()`
coercion, or a raised request exception all yield `none`; otherwise
the coerced coordinate pair. -/
def get_ip_location (req : IPRequest) : Option (ℚ × ℚ) :=
  match req with
  | Except.error _ => none
  | Except.ok p =>
      if p.error then none
      else
        match p.latitude, p.longitude with
        | some la, some lo =>
            match pyFloat la, pyFloat lo with
            | Except.ok qa, Except.ok qo => some (qa, qo)
            | _, _ => none
        | _, _ => none

/-- The field map built by `get_location_info`: keys `city`, `region`,
`country`, `country_code`, `timezone` of the returned dict. -/
structure LocationInfo where
  city : String
  region : String
  country : String
  country_code : String
  timezone : String
deriving DecidableEq, Repr

/-- `LocationService.get_location_info` (the spec's `detailedInfo`):
one request; a raised request exception or a provider error flag
yields `none`; otherwise each descriptive field, defaulting to
`"Unknown"` when absent (`country` comes from `country_name`,
`country_code` from `country`). -/
def get_location_info (req : IPRequest) : Option LocationInfo :=
  match req with
  | Except.error _ => none
  | Except.ok p =>
      if p.error then none
      else
        some { city := p.city.getD "Unknown"
             , region := p.region.getD "Unknown"
             , country := p.country_name.getD "Unknown"
             , country_code := p.country.getD "Unknown"
             , timezone := p.timezone.getD "Unknown" }

/-- The environment seen by one run of
`LocationService._get_macos_location`: either the `CoreLocation`
module fails to load, or some other exception is raised inside the `try`
block, or the run proceeds and observes: whether location services are
enabled, the authorization check before and after the one
permission-request/wait cycle, and the fix returned by `location()`
before and after the one `requestLocation()`/wait cycle. -/
inductive MacStep where
  | importErr : MacStep
  | exn : MacStep
  | run (servicesEnabled authOk authOkRetry : Bool)
        (fix1 fix2 : Option (ℚ × ℚ)) : MacStep
deriving Repr

/-- The body of the `try` block of `_get_macos_location`, in the
exception monad: raises on import failure or an injected exception;
otherwise returns `none` when services are disabled, when both
authorization checks fail, or when no fix is obtained in the two
queries; otherwise the fix's coordinates. -/
def macos_location_body : MacStep → Except Unit (Option (ℚ × ℚ))
  | MacStep.importErr => Except.error ()
  | MacStep.exn => Except.error ()
  | MacStep.run servicesEnabled authOk authOkRetry fix1 fix2 =>
      if servicesEnabled = false then Except.ok none
      else if authOk = false && authOkRetry = false then Except.ok none
      else
        match fix1 with
        | some c => Except.ok (some c)
        | none =>
            match fix2 with
            | some c => Except.ok (some c)
            | none => Except.ok none

/-- `LocationService._get_macos_location`: the body with its
`except ImportError` / `except Exception` handlers, which turn every
raise into `None`. -/
def get_macos_location (s : MacStep) : Option (ℚ × ℚ) :=
  match macos_location_body s with
  | Except.ok r => r
  | Except.error _ => none

/-- The environment seen by one run of
`LocationService._get_linux_location`: either the `gpsd` import fails,
or an exception is raised inside the `try` block (connect failure,
attribute errors, ...), or a packet is obtained with its `mode` and
optional `lat`/`lon` fields. -/
inductive GpsStep where
  | importErr : GpsStep
  | exn : GpsStep
  | packet (mode : ℤ) (lat lon : Option ℚ) : GpsStep
deriving Repr

/-- The body of the `try` block of `_get_linux_location`: raises on
module-load failure or an injected exception; returns `none` when
`mode < 2` (no fix), when `lat` or `lon` is missing, or when either
equals `0.0`; otherwise the coordinates. -/
def linux_location_body : GpsStep → Except Unit (Option (ℚ × ℚ))
  | GpsStep.importErr => Except.error ()
  | GpsStep.exn => Except.error ()
  | GpsStep.packet mode lat lon =>
      if mode < 2 then Except.ok none
      else
        match lat, lon with
        | some la, some lo =>
            if la = 0 || lo = 0 then Except.ok none
            else Except.ok (some (la, lo))
        | _, _ => Except.ok none

/-- `LocationService._get_linux_location`: the body with its
`except ImportError` / `except Exception` handlers, which turn every
raise into `None`. -/
def get_linux_location (s : GpsStep) : Option (ℚ × ℚ) :=
  match linux_location_body s with
  | Except.ok r => r
  | Except.error _ => none

/-- `LocationService.get_current_location`, instrumented with the list
of layer calls it performs. `native` is the value returned by
`_get_native_location` (which never raises: it catches every
exception), `ipRes` the value `_get_ip_location` would return if
called. Layer 1 is always attempted; layer 2 runs only when layer 1
yields nothing; `none` when both fail. -/
def get_current_location (native ipRes : Option (ℚ × ℚ)) :
    Option (ℚ × ℚ) × List ProviderCall :=
  match native with
  | some c => (some c, [ProviderCall.native])
  | none =>
      match ipRes with
      | some c => (some c, [ProviderCall.native, ProviderCall.ip])
      | none => (none, [ProviderCall.native, ProviderCall.ip])

/-- Python truthiness of an `Optional[str]`: `None` and `""` are
falsy, every other string is truthy. -/
def pyTruthyStr : Option String → Bool
  | none => false
  | some s => !s.isEmpty

/-- The environment of one `LocationResolver.resolve_location` call:
the results the two acquisition layers would produce, and the value of
`config.get_default_city()`. -/
structure ResolveEnv where
  native : Option (ℚ × ℚ)
  ip : Option (ℚ × ℚ)
  default_city : Option String
deriving Repr

/-- `LocationResolver._get_current_location`: delegates to
`get_current_location` and wraps a coordinate result with
`Location.from_coordinates`; `None` otherwise. (Its
`except (RequestException, ValueError)` handler is dead in the model:
`get_current_location` catches everything internally.) -/
def get_current_location_wrapped (env : ResolveEnv) :
    Option Location × List ProviderCall :=
  match get_current_location env.native env.ip with
  | (r, t) => (r.map fun c => Location.from_coordinates c.1 c.2, t)

/-- `LocationResolver.resolve_location`: priority chain
`here` flag > truthy `city` argument > truthy configured default city >
automatic acquisition, instrumented with the acquisition-layer calls
performed. -/
def resolve_location (env : ResolveEnv) (here : Bool) (city : Option String) :
    Option Location × List ProviderCall :=
  if here then get_current_location_wrapped env
  else if pyTruthyStr city then
    (some (Location.from_city (city.getD "")), [])
  else if pyTruthyStr env.default_city then
    (some (Location.from_city (env.default_city.getD "")), [])
  else get_current_location_wrapped env

example : parseDecimal "40.7128" = some (mkRat 407128 10000) := by decide
example : parseDecimal "-74.0060" = some (mkRat (-74006) 1000) := by decide
example : parseDecimal "" = none := by decide
example : parseDecimal "1.2.3" = none := by decide
example : parseDecimal "abc" = none := by decide
example : parseDecimal "-13" = some (mkRat (-13) 1) := by decide
example : parseDecimal ".5" = some (mkRat 1 2) := by decide

/-- C1: with the "use current location" flag true, `resolve_location`
never yields a city: its result is exactly the acquirer's coordinates
wrapped with `Location.from_coordinates` when acquisition succeeds,
`none` when acquisition fails, for every city argument and every
configured default city. -/
theorem C1_here_flag_is_authoritative (env : ResolveEnv) (city : Option String) :
    (resolve_location env true city).1
      = ((get_current_location env.native env.ip).1.map
          fun c => Location.from_coordinates c.1 c.2)
    ∧ ((get_current_location env.native env.ip).1 = none →
        (resolve_location env true city).1 = none)
    ∧ (∀ l, (resolve_location env true city).1 = some l →
        l.is_coordinates = true) := by
  refine ⟨?_, ?_, ?_⟩ <;>
    cases hn : env.native <;> cases hi : env.ip <;>
      simp [resolve_location, get_current_location_wrapped,
        get_current_location, hn, hi, Location.is_coordinates,
        Location.from_coordinates]

/-- C2: `get_current_location` always attempts the native layer first,
returns its coordinates when it yields a fix, consults the IP layer if
and only if the native layer yields nothing, and in particular returns
`(1, 2)` when the native layer is unavailable and the IP layer yields
`(1, 2)`. -/
theorem C2_native_first_ip_fallback (native ipRes : Option (ℚ × ℚ)) :
    (get_current_location native ipRes).2.head? = some ProviderCall.native
    ∧ (∀ c, native = some c → (get_current_location native ipRes).1 = some c)
    ∧ (ProviderCall.ip ∈ (get_current_location native ipRes).2 ↔ native = none)
    ∧ (native = none → ipRes = some (1, 2) →
        (get_current_location native ipRes).1 = some (1, 2)) := by
  cases native <;> cases ipRes <;>
    simp [get_current_location]

/-- Witness for C2 at the spec's concrete scenario: native layer
unavailable, IP layer at `(1, 2)`. -/
theorem C2_witness :
    (get_current_location none (some ((1 : ℚ), (2 : ℚ)))).1 = some (1, 2) :=
  (C2_native_first_ip_fallback none (some (1, 2))).2.2.2 rfl rfl

/-- C3: when both acquisition layers are unavailable, no city argument
is given and no default city is configured, `resolve_location` returns
the failure outcome `none` (the model is a total function: no
exception crosses the boundary). -/
theorem C3_absence_yields_failure (env : ResolveEnv) (h1 : env.native = none)
    (h2 : env.ip = none) (h3 : env.default_city = none) :
    (resolve_location env false none).1 = none := by
  simp [resolve_location, get_current_location_wrapped, get_current_location,
    pyTruthyStr, h1, h2, h3]

/-- Witness for C3 at the fully-unavailable environment. -/
theorem C3_witness :
    (resolve_location ⟨none, none, none⟩ false none).1 = none :=
  C3_absence_yields_failure ⟨none, none, none⟩ rfl rfl rfl

/-- A `Location` reachable through the public constructors of
`src/weather/types.py`. -/
def ConstructibleLoc (l : Location) : Prop :=
  (∃ c, l = Location.from_city c) ∨ (∃ la lo, l = Location.from_coordinates la lo)

/-- Modelled from the spec's words (for comparison with the code): a
`Location` is a `City` with a non-empty name, or `Coordinates` with
latitude in `[-90, 90]` and longitude in `[-180, 180]`. -/
def SpecLocationInvariant (l : Location) : Prop :=
  (∃ c, c ≠ "" ∧ l.value = LocValue.city c)
  ∨ (∃ la lo, -90 ≤ la ∧ la ≤ 90 ∧ -180 ≤ lo ∧ lo ≤ 180
      ∧ l.value = LocValue.coords la lo)

/-- Counterexample to C4 as stated: `from_city("")` is constructible
through the public constructors, yet it is a city with an empty name,
violating the claimed invariant (the constructors validate nothing;
`from_coordinates 91 0` likewise escapes the claimed coordinate
ranges). -/
theorem C4_counterexample :
    ConstructibleLoc (Location.from_city "")
    ∧ ¬ SpecLocationInvariant (Location.from_city "")
    ∧ ConstructibleLoc (Location.from_coordinates 91 0)
    ∧ ¬ SpecLocationInvariant (Location.from_coordinates 91 0) := by
  refine ⟨Or.inl ⟨"", rfl⟩, ?_, Or.inr ⟨91, 0, rfl⟩, ?_⟩
  · rintro (⟨c, hc, hv⟩ | ⟨la, lo, _, _, _, _, hv⟩) <;>
      simp [Location.from_city] at hv
    exact hc hv.symm
  · rintro (⟨c, hc, hv⟩ | ⟨la, lo, h1, h2, _, _, hv⟩) <;>
      simp [Location.from_coordinates] at hv
    obtain ⟨hla, hlo⟩ := hv
    rw [← hla] at h2
    norm_num at h2

/-- C4 amended: every `Location` built by `from_city` or
`from_coordinates` is exactly one of the two variants (never both,
never neither), but the constructors perform no validation: an empty
city name and out-of-range coordinates are accepted unchecked. -/
theorem C4_two_variants (l : Location) (h : ConstructibleLoc l) :
    ((∃ c, l.value = LocValue.city c) ∨ (∃ la lo, l.value = LocValue.coords la lo))
    ∧ ¬((∃ c, l.value = LocValue.city c)
        ∧ (∃ la lo, l.value = LocValue.coords la lo)) := by
  rcases h with ⟨c, rfl⟩ | ⟨la, lo, rfl⟩
  · refine ⟨Or.inl ⟨c, rfl⟩, ?_⟩
    rintro ⟨-, ⟨la, lo, hco⟩⟩
    simp [Location.from_city] at hco
  · refine ⟨Or.inr ⟨la, lo, rfl⟩, ?_⟩
    rintro ⟨⟨c, hc⟩, -⟩
    simp [Location.from_coordinates] at hc

/-- Witness for the amended C4 at `from_city "London"`. -/
theorem C4_witness :
    ((∃ c, (Location.from_city "London").value = LocValue.city c)
      ∨ (∃ la lo, (Location.from_city "London").value = LocValue.coords la lo))
    ∧ ¬((∃ c, (Location.from_city "London").value = LocValue.city c)
        ∧ (∃ la lo, (Location.from_city "London").value = LocValue.coords la lo)) :=
  C4_two_variants (Location.from_city "London") (Or.inl ⟨"London", rfl⟩)

/-- C5: for coordinates in the valid ranges the stored description is
`"coordinates {lat:.2f}, {lon:.2f}"`, and for non-empty city names it
is `"city {s}"`. -/
theorem C5_description_formats (la lo : ℚ) (s : String)
    (_hla : -90 ≤ la ∧ la ≤ 90) (_hlo : -180 ≤ lo ∧ lo ≤ 180) (_hs : s ≠ "") :
    (Location.from_coordinates la lo).description
      = "coordinates " ++ fmt2 la ++ ", " ++ fmt2 lo
    ∧ (Location.from_city s).description = "city " ++ s :=
  ⟨rfl, rfl⟩

/-- Witness for C5 at `(40.7128, -74.006)` and `"Paris"`: the
formatted description is `"coordinates 40.71, -74.01"`. -/
theorem C5_witness :
    (Location.from_coordinates (mkRat 407128 10000) (mkRat (-74006) 1000)).description
      = "coordinates 40.71, -74.01"
    ∧ (Location.from_city "Paris").description = "city Paris" := by
  have h := C5_description_formats (mkRat 407128 10000) (mkRat (-74006) 1000)
    "Paris"
    ⟨by rw [Rat.mkRat_eq_div]; norm_num, by rw [Rat.mkRat_eq_div]; norm_num⟩
    ⟨by rw [Rat.mkRat_eq_div]; norm_num, by rw [Rat.mkRat_eq_div]; norm_num⟩
    (by decide)
  exact ⟨h.1.trans (by decide), h.2.trans (by decide)⟩

/-- C6: `get_location_info` is deterministic over an identical request
outcome; a provider error flag or a raised request exception yields
`none`; and each missing descriptive field defaults to the literal
`"Unknown"` in the returned field map. -/
theorem C6_detailed_info_fields :
    (∀ req : IPRequest, get_location_info req = get_location_info req)
    ∧ (∀ p : IPPayload, p.error = true → get_location_info (Except.ok p) = none)
    ∧ (∀ e : Unit, get_location_info (Except.error e) = none)
    ∧ (∀ p : IPPayload, p.error = false →
        get_location_info (Except.ok p)
          = some { city := p.city.getD "Unknown"
                 , region := p.region.getD "Unknown"
                 , country := p.country_name.getD "Unknown"
                 , country_code := p.country.getD "Unknown"
                 , timezone := p.timezone.getD "Unknown" })
    ∧ (∀ p : IPPayload, p.error = false → p.city = none → p.region = none →
        p.country_name = none → p.country = none → p.timezone = none →
        get_location_info (Except.ok p)
          = some ⟨"Unknown", "Unknown", "Unknown", "Unknown", "Unknown"⟩) := by
  refine ⟨fun _ => rfl, ?_, fun _ => rfl, ?_, ?_⟩
  · intro p h; simp [get_location_info, h]
  · intro p h; simp [get_location_info, h]
  · intro p h h1 h2 h3 h4 h5
    simp [get_location_info, h, h1, h2, h3, h4, h5]

/-- Witness for C6 at a successful payload with every descriptive
field missing: all five fields default to `"Unknown"`. -/
theorem C6_witness :
    get_location_info (Except.ok
      { error := false, latitude := none, longitude := none
      , city := none, region := none, country_name := none
      , country := none, timezone := none })
      = some ⟨"Unknown", "Unknown", "Unknown", "Unknown", "Unknown"⟩ :=
  C6_detailed_info_fields.2.2.2.2
    { error := false, latitude := none, longitude := none
    , city := none, region := none, country_name := none
    , country := none, timezone := none }
    rfl rfl rfl rfl rfl rfl

/-- Counterexample to C7 as stated: a macOS run with services enabled,
authorization granted, and a first fix of exactly `(0, 0)` returns the
zero-valued coordinates instead of the claimed "not available"
(`none`); only the Linux strategy rejects zero-valued coordinates. -/
theorem C7_counterexample :
    get_macos_location (MacStep.run true true true (some (0, 0)) none)
      = some (0, 0)
    ∧ some ((0 : ℚ), (0 : ℚ)) ≠ none := by
  exact ⟨rfl, by simp⟩

/-- C7 amended: every provider-level fault in the macOS and Linux
strategies — raised exception (import failure or otherwise), services
disabled, permission denied after the retry, no fix from either query,
GPS mode below 2, missing coordinate fields, and zero-valued
coordinates on Linux only — is converted to `none` inside the
strategy; every raise of the `try` body is absorbed. The macOS (and
Windows) strategy does not reject a zero-valued fix. -/
theorem C7_faults_become_none :
    (∀ s, macos_location_body s = Except.error () → get_macos_location s = none)
    ∧ get_macos_location MacStep.importErr = none
    ∧ get_macos_location MacStep.exn = none
    ∧ (∀ b1 b2 f1 f2, get_macos_location (MacStep.run false b1 b2 f1 f2) = none)
    ∧ (∀ f1 f2, get_macos_location (MacStep.run true false false f1 f2) = none)
    ∧ (∀ b1 b2, get_macos_location (MacStep.run true b1 b2 none none) = none)
    ∧ (∀ s, linux_location_body s = Except.error () → get_linux_location s = none)
    ∧ get_linux_location GpsStep.importErr = none
    ∧ get_linux_location GpsStep.exn = none
    ∧ (∀ m la lo, m < 2 → get_linux_location (GpsStep.packet m la lo) = none)
    ∧ (∀ m lo, get_linux_location (GpsStep.packet m none lo) = none)
    ∧ (∀ m la, get_linux_location (GpsStep.packet m la none) = none)
    ∧ (∀ m lo, get_linux_location (GpsStep.packet m (some 0) lo) = none)
    ∧ (∀ m la, get_linux_location (GpsStep.packet m la (some 0)) = none) := by
  refine ⟨?_, rfl, rfl, ?_, ?_, ?_, ?_, rfl, rfl, ?_, ?_, ?_, ?_, ?_⟩
  · intro s h; simp [get_macos_location, h]
  · intro b1 b2 f1 f2; simp [get_macos_location, macos_location_body]
  · intro f1 f2
    cases f1 <;> cases f2 <;>
      simp [get_macos_location, macos_location_body]
  · intro b1 b2
    cases b1 <;> cases b2 <;>
      simp [get_macos_location, macos_location_body]
  · intro s h; simp [get_linux_location, h]
  · intro m la lo h
    simp [get_linux_location, linux_location_body, h]
  · intro m lo
    cases lo <;>
      by_cases hm : m < 2 <;>
        simp [get_linux_location, linux_location_body, hm]
  · intro m la
    cases la <;>
      by_cases hm : m < 2 <;>
        simp [get_linux_location, linux_location_body, hm]
  · intro m lo
    cases lo <;>
      by_cases hm : m < 2 <;>
        simp [get_linux_location, linux_location_body, hm]
  · intro m la
    cases la with
    | none =>
        by_cases hm : m < 2 <;>
          simp [get_linux_location, linux_location_body, hm]
    | some a =>
        by_cases hm : m < 2 <;>
          simp [get_linux_location, linux_location_body, hm]

/-- Witness for the amended C7: an in-body exception on macOS, and a
Linux packet without a fix (`mode = 1`), both yield `none`. -/
theorem C7_witness :
    get_macos_location MacStep.exn = none
    ∧ get_linux_location (GpsStep.packet 1 (some 3) (some 4)) = none :=
  ⟨C7_faults_become_none.1 MacStep.exn rfl,
   C7_faults_become_none.2.2.2.2.2.2.2.2.2.1 1 (some 3) (some 4) (by decide)⟩

/-- C8: a payload carrying its coordinates as the numeric strings
`"40.7128"` and `"-74.0060"` is coerced by `_get_ip_location` to the
exact values `40.7128` and `-74.006`. -/
theorem C8_string_coordinates_coerced :
    get_ip_location (Except.ok
      { error := false
      , latitude := some (JVal.str "40.7128")
      , longitude := some (JVal.str "-74.0060")
      , city := none, region := none, country_name := none
      , country := none, timezone := none })
      = some ((40.7128 : ℚ), (-74.006 : ℚ)) := by
  have h1 : (40.7128 : ℚ) = mkRat 407128 10000 := by
    rw [Rat.mkRat_eq_div]; norm_num
  have h2 : (-74.006 : ℚ) = mkRat (-74006) 1000 := by
    rw [Rat.mkRat_eq_div]; norm_num
  rw [h1, h2]
  decide

/-- C9: `resolve_location(here=false, city="London")` is always
`City("London")` with no acquisition-layer call, in every environment
(whatever default city is configured, if any); and whenever the
configured default is `"Berlin"` and no city argument is given, the
result is `City("Berlin")`, again with no acquisition-layer call. -/
theorem C9_city_then_default (env : ResolveEnv) :
    resolve_location env false (some "London")
      = (some (Location.from_city "London"), [])
    ∧ (env.default_city = some "Berlin" →
        resolve_location env false none
          = (some (Location.from_city "Berlin"), [])) := by
  constructor
  · simp [resolve_location, pyTruthyStr]
    intro hcon
    exact absurd hcon (by decide)
  · intro h
    simp [resolve_location, pyTruthyStr, h]
    intro hcon
    exact absurd hcon (by decide)

/-- Witness for C9, discharging the default-city hypothesis at a
`"Berlin"` configuration. -/
theorem C9_witness :
    resolve_location ⟨none, none, some "Berlin"⟩ false (some "London")
      = (some (Location.from_city "London"), [])
    ∧ resolve_location ⟨none, none, some "Berlin"⟩ false none
      = (some (Location.from_city "Berlin"), []) :=
  ⟨(C9_city_then_default ⟨none, none, some "Berlin"⟩).1,
   (C9_city_then_default ⟨none, none, some "Berlin"⟩).2 rfl⟩

/-- C10: an empty city argument behaves exactly like an absent one —
`resolve_location(false, "")` equals `resolve_location(false, None)`
in result and in acquisition-layer calls, for every environment. -/
theorem C10_empty_city_like_none (env : ResolveEnv) :
    resolve_location env false (some "") = resolve_location env false none :=
  rfl
